import Mathlib

/-!
Verification development for the `elsa-web-app` repository
(`src/api/index.py`): a FastAPI service that routes a user prompt to one
of four generation "tools" (chibi image, robot image, general image,
Mermaid diagram) via an LLM classification call, and returns the tool's
result object.

The Python module is shallowly embedded: remote collaborators (the
generative-model service and the object store) are modelled as explicit
oracle inputs, Python exceptions become `Except String`, and dict
results with the two keys `type`/`content` become the structure
`ToolResult`.  `json.loads` is modelled by a small executable JSON
parser (`json_loads`); its deliberate simplifications (integral numbers
only, no `\u` escapes) never affect the theorems below, whose
conclusions in the parse-failure and non-string cases coincide.
-/

namespace ElsaApp

/-- The backtick character, written by code point. -/
def btick : Char := Char.ofNat 96

/-- The opening-brace character, written by code point. -/
def lbrace : Char := Char.ofNat 123

/-- The closing-brace character, written by code point. -/
def rbrace : Char := Char.ofNat 125

/-- Python `str.strip()` whitespace set (space, tab, newline, carriage
return, vertical tab, form feed). -/
def isPyWs (c : Char) : Bool :=
  c = ' ' || c = '\t' || c = '\n' || c = '\r' || c = '\x0b' || c = '\x0c'

/-- Drop leading characters satisfying `p`: the list part of Python
`str.lstrip`. -/
def lstripBy (p : Char → Bool) : List Char → List Char
  | [] => []
  | c :: cs => if p c then lstripBy p cs else c :: cs

/-- Drop trailing characters satisfying `p`: the list part of Python
`str.rstrip`. -/
def rstripBy (p : Char → Bool) (cs : List Char) : List Char :=
  (lstripBy p cs.reverse).reverse

/-- Python `str.strip()` with no argument: strip whitespace at both ends. -/
def pyStripWs (cs : List Char) : List Char :=
  rstripBy isPyWs (lstripBy isPyWs cs)

/-- The character set of the Python argument string in
`lstrip("` ``` `json")`: `lstrip` treats its argument as a set of
characters, not a literal prefix. -/
def fenceSet : List Char := [btick, 'j', 's', 'o', 'n']

/-- Models `text.strip().lstrip("` ``` `json").rstrip("` ``` `")` from
`get_agent_decision` (src/api/index.py line 163). -/
def fenceStrip (text : String) : String :=
  String.mk (rstripBy (fun c => c = btick)
    (lstripBy (fun c => fenceSet.contains c) (pyStripWs text.data)))

/-- Python `str(x)` applied to an optional string: `None` prints as
"None" (this is how an unset `BUCKET_NAME` flows into f-strings). -/
def pyStr : Option String → String
  | none => "None"
  | some s => s

/-- Python `str.lower()`, character by character (ASCII case mapping,
which covers every string this service compares). -/
def pyLower (s : String) : String := String.mk (s.data.map Char.toLower)

/-! ### A model of `json.loads`

Executable, total (fuel-indexed, structurally recursive) parser for the
JSON grammar, sufficient for the classification responses this service
parses.  Numbers are modelled as integers (no fraction/exponent) and
`\u` escapes are rejected; both restrictions are invisible to the
theorems below because every parse failure and every non-string `tool`
value lead the code to the same `general` fallback. -/

/-- A parsed JSON value.  Objects keep their members in source order;
lookup takes the last occurrence of a key, as Python dicts built by
`json.loads` do. -/
inductive JsonValue where
  | null
  | bool (b : Bool)
  | num (n : Int)
  | str (s : String)
  | arr (items : List JsonValue)
  | obj (members : List (String × JsonValue))

/-- JSON whitespace (space, tab, newline, carriage return). -/
def isJsonWs (c : Char) : Bool :=
  c = ' ' || c = '\t' || c = '\n' || c = '\r'

/-- Drop leading JSON whitespace. -/
def skipJsonWs (cs : List Char) : List Char := lstripBy isJsonWs cs

/-- Decode a single-character JSON escape (`\u` escapes are not
modelled). -/
def escChar : Char → Option Char
  | '"' => some '"'
  | '\\' => some '\\'
  | '/' => some '/'
  | 'b' => some (Char.ofNat 8)
  | 'f' => some (Char.ofNat 12)
  | 'n' => some '\n'
  | 'r' => some '\r'
  | 't' => some '\t'
  | _ => none

/-- Parse the body of a JSON string after the opening quote, returning
the decoded string and the remaining input. -/
def parseJStr : List Char → Option (String × List Char)
  | [] => none
  | c :: cs =>
    if c = '"' then some ("", cs)
    else if c = '\\' then
      match cs with
      | [] => none
      | e :: cs1 =>
        match escChar e with
        | none => none
        | some ec =>
          match parseJStr cs1 with
          | none => none
          | some (s, rest) => some (String.mk (ec :: s.data), rest)
    else
      match parseJStr cs with
      | none => none
      | some (s, rest) => some (String.mk (c :: s.data), rest)

/-- Accumulate a run of decimal digits. -/
def takeDigits : List Char → Nat → Nat × List Char
  | [], acc => (acc, [])
  | c :: cs, acc =>
    if c.isDigit then takeDigits cs (acc * 10 + (c.toNat - 48)) else (acc, c :: cs)

/-- Expect a fixed keyword (the tails of `true`, `false`, `null`). -/
def expectChars : List Char → List Char → Option (List Char)
  | [], cs => some cs
  | _, [] => none
  | k :: ks, c :: cs => if c = k then expectChars ks cs else none

mutual

/-- Parse one JSON value (fuel-indexed; every recursive call decreases
the fuel, so the definition is structural and kernel-reducible). -/
def parseVal : Nat → List Char → Option (JsonValue × List Char)
  | 0, _ => none
  | fuel + 1, cs =>
    match skipJsonWs cs with
    | [] => none
    | c :: cs1 =>
      if c = '"' then
        match parseJStr cs1 with
        | some (s, rest) => some (JsonValue.str s, rest)
        | none => none
      else if c = lbrace then
        match skipJsonWs cs1 with
        | [] => none
        | d :: cs2 =>
          if d = rbrace then some (JsonValue.obj [], cs2)
          else parseMembers fuel (d :: cs2)
      else if c = '[' then
        match skipJsonWs cs1 with
        | [] => none
        | d :: cs2 =>
          if d = ']' then some (JsonValue.arr [], cs2)
          else parseItems fuel (d :: cs2)
      else if c = 't' then
        match expectChars ['r', 'u', 'e'] cs1 with
        | some rest => some (JsonValue.bool true, rest)
        | none => none
      else if c = 'f' then
        match expectChars ['a', 'l', 's', 'e'] cs1 with
        | some rest => some (JsonValue.bool false, rest)
        | none => none
      else if c = 'n' then
        match expectChars ['u', 'l', 'l'] cs1 with
        | some rest => some (JsonValue.null, rest)
        | none => none
      else if c = '-' then
        match cs1 with
        | d :: cs2 =>
          if d.isDigit then
            match takeDigits cs2 (d.toNat - 48) with
            | (n, rest) => some (JsonValue.num (-(n : Int)), rest)
          else none
        | [] => none
      else if c.isDigit then
        match takeDigits cs1 (c.toNat - 48) with
        | (n, rest) => some (JsonValue.num (n : Int), rest)
      else none

/-- Parse the members of a JSON object after a non-`}` character has
been seen. -/
def parseMembers : Nat → List Char → Option (JsonValue × List Char)
  | 0, _ => none
  | fuel + 1, cs =>
    match skipJsonWs cs with
    | [] => none
    | c :: cs1 =>
      if c = '"' then
        match parseJStr cs1 with
        | none => none
        | some (key, rest1) =>
          match skipJsonWs rest1 with
          | [] => none
          | d :: rest2 =>
            if d = ':' then
              match parseVal fuel rest2 with
              | none => none
              | some (v, rest3) =>
                match skipJsonWs rest3 with
                | [] => none
                | e :: rest4 =>
                  if e = ',' then
                    match parseMembers fuel rest4 with
                    | some (JsonValue.obj ms, rest5) =>
                      some (JsonValue.obj ((key, v) :: ms), rest5)
                    | _ => none
                  else if e = rbrace then
                    some (JsonValue.obj [(key, v)], rest4)
                  else none
            else none
      else none

/-- Parse the items of a JSON array after a non-`]` character has been
seen. -/
def parseItems : Nat → List Char → Option (JsonValue × List Char)
  | 0, _ => none
  | fuel + 1, cs =>
    match parseVal fuel cs with
    | none => none
    | some (v, rest) =>
      match skipJsonWs rest with
      | [] => none
      | c :: rest1 =>
        if c = ',' then
          match parseItems fuel rest1 with
          | some (JsonValue.arr vs, rest2) => some (JsonValue.arr (v :: vs), rest2)
          | _ => none
        else if c = ']' then some (JsonValue.arr [v], rest1)
        else none

end

/-- Models Python `json.loads`: parse one value, require only
whitespace afterwards, `none` models a raised `JSONDecodeError`. -/
def json_loads (s : String) : Option JsonValue :=
  match parseVal (s.length + 1) s.data with
  | some (v, rest) => if skipJsonWs rest = [] then some v else none
  | none => none

/-- Last-occurrence association lookup: the value a Python dict built
by `json.loads` holds for `key` when the members list is `ms`. -/
def lastAssoc (ms : List (String × JsonValue)) (key : String) : Option JsonValue :=
  match ms with
  | [] => none
  | (k, v) :: rest =>
    match lastAssoc rest key with
    | some w => some w
    | none => if k = key then some v else none

/-! ### The routing function (`get_agent_decision`) -/

/-- Outcome of a remote text-generation call: either an exception
carrying a message, or a response whose `.text` accessor succeeded. -/
inductive RemoteText where
  | raises (msg : String)
  | returns (text : String)

/-- The four tool names the routing function accepts
(src/api/index.py line 166). -/
def knownTools : List String := ["chibi", "robot", "diagram", "general"]

/-- Models `decision.get("tool", "general").lower()` together with the
Python exceptions that expression can raise inside the `try` block:
`none` models an `AttributeError` (`.get` on a non-dict, or `.lower()`
on a non-string value); a missing key yields the default "general". -/
def pyToolLookup : JsonValue → Option String
  | JsonValue.obj ms =>
    match lastAssoc ms "tool" with
    | none => some "general"
    | some (JsonValue.str s) => some (pyLower s)
    | some _ => none
  | _ => none

/-- Models `get_agent_decision` (src/api/index.py lines 139-172).  The
remote classification call is the oracle input `remote`; the function
is total, which embeds the property that it never raises past its own
boundary: every failure path returns the pair `("general", user_prompt)`. -/
def get_agent_decision (user_prompt : String) (remote : RemoteText) : String × String :=
  match remote with
  | RemoteText.raises _ => ("general", user_prompt)
  | RemoteText.returns text =>
    let json_text := fenceStrip text
    match json_loads json_text with
    | none => ("general", user_prompt)
    | some decision =>
      match pyToolLookup decision with
      | none => ("general", user_prompt)
      | some tool =>
        if tool ∈ knownTools then (tool, user_prompt)
        else ("general", user_prompt)

/-! ### The four tool functions -/

/-- A tool's result: a model of the Python dict literals
`{"type": ..., "content": ...}`.  Every return site in the source is a
two-key literal of exactly this shape, so the structure having exactly
these two fields embeds the "exactly two fields" invariant. -/
structure ToolResult where
  type : String
  content : String

/-- The inline binary payload of a model response part (`inline_data.data`). -/
structure InlineBlob where
  data : List Nat

/-- One content part of a model response; `inline_data` is `none` for
text-only parts (Python truthiness of `part.inline_data`). -/
structure RespPart where
  inline_data : Option InlineBlob

/-- The `content` of a response candidate. -/
structure RespContent where
  parts : List RespPart

/-- One candidate of a model response. -/
structure Candidate where
  content : RespContent

/-- A model response from an image-generation call. -/
structure GenResponse where
  candidates : List Candidate

/-- One element of the `prompt_parts` list sent to the model: either a
raw text string or a `Part.from_uri(uri, mime_type=...)` reference. -/
inductive PromptPart where
  | text (s : String)
  | uri (u : String) (mime : String)

/-- The URI carried by a `PromptPart`, if any. -/
def partUri : PromptPart → Option String
  | PromptPart.uri u _ => some u
  | PromptPart.text _ => none

/-- The request a tool hands to `blob.upload_from_string`. -/
structure StorageRequest where
  blobName : String
  data : List Nat
  contentType : String

/-- Oracle inputs consumed by one image-tool invocation: the outcome of
`image_model.generate_content` as a function of the outgoing request,
the outcomes of the two storage operations, and the fresh value of
`uuid.uuid4()`. -/
structure ImageEnv where
  gen : List PromptPart → Except String GenResponse
  upload : StorageRequest → Except String Unit
  makePublic : String → Except String Unit
  uuid : String

/-- Models `blob.public_url` (URL quoting omitted: the generated blob
names contain no characters needing quoting; an unset bucket name
renders as "None" as Python string formatting does). -/
def publicUrl (bucket : Option String) (name : String) : String :=
  "https://storage.googleapis.com/" ++ pyStr bucket ++ "/" ++ name

/-- The scan `for part in ...: if part.inline_data: ...; break`
(src/api/index.py lines 72-75): first part carrying inline data, in
order. -/
def findInline : List RespPart → Option InlineBlob
  | [] => none
  | pt :: rest =>
    match pt.inline_data with
    | some b => some b
    | none => findInline rest

/-- The 14 chibi style-reference URIs (src/api/index.py line 66), in
source order, as functions of `BUCKET_NAME`. -/
def CHIBI_STYLE_GUIDE_URIS (bucket : Option String) : List String :=
  [ "gs://" ++ pyStr bucket ++ "/chibi_dataset_images/elsa_01.png"
  , "gs://" ++ pyStr bucket ++ "/chibi_dataset_images/elsa_02.png"
  , "gs://" ++ pyStr bucket ++ "/chibi_dataset_images/elsa_03.png"
  , "gs://" ++ pyStr bucket ++ "/chibi_dataset_images/elsa_04.png"
  , "gs://" ++ pyStr bucket ++ "/chibi_dataset_images/elsa_10.png"
  , "gs://" ++ pyStr bucket ++ "/chibi_dataset_images/elsa_15.png"
  , "gs://" ++ pyStr bucket ++ "/chibi_dataset_images/elsa_09_dollar.png"
  , "gs://" ++ pyStr bucket ++ "/chibi_dataset_images/elsa_09_heart.png"
  , "gs://" ++ pyStr bucket ++ "/chibi_dataset_images/elsa_09_sad.png"
  , "gs://" ++ pyStr bucket ++ "/chibi_dataset_images/elsa_13_wink.png"
  , "gs://" ++ pyStr bucket ++ "/chibi_dataset_images/elsa_13_star.png"
  , "gs://" ++ pyStr bucket ++ "/chibi_dataset_images/elsa_13_sleep.png"
  , "gs://" ++ pyStr bucket ++ "/chibi_dataset_images/elsa_13_angry.png"
  , "gs://" ++ pyStr bucket ++ "/chibi_dataset_images/elsa_20_cropped.png" ]

/-- The 9 robot style-reference URIs (src/api/index.py line 88), in
source order. -/
def ROBOT_STYLE_GUIDE_URIS (bucket : Option String) : List String :=
  [ "gs://" ++ pyStr bucket ++ "/robot_images/elsa_05.png"
  , "gs://" ++ pyStr bucket ++ "/robot_images/elsa_06.png"
  , "gs://" ++ pyStr bucket ++ "/robot_images/elsa_07.png"
  , "gs://" ++ pyStr bucket ++ "/robot_images/elsa_08.png"
  , "gs://" ++ pyStr bucket ++ "/robot_images/elsa_11.png"
  , "gs://" ++ pyStr bucket ++ "/robot_images/elsa_12.png"
  , "gs://" ++ pyStr bucket ++ "/robot_images/elsa_17.png"
  , "gs://" ++ pyStr bucket ++ "/robot_images/elsa_18.png"
  , "gs://" ++ pyStr bucket ++ "/robot_images/elsa_19.png" ]

/-- The `prompt_parts` list the chibi tool sends (src/api/index.py
lines 67-68): instruction text first, then every reference URI as an
`image/png` part, in the fixed order. -/
def chibiPromptParts (bucket : Option String) (prompt : String) : List PromptPart :=
  PromptPart.text ("Using the " ++ toString (CHIBI_STYLE_GUIDE_URIS bucket).length
      ++ " uploaded images as a visual style reference for the \x27chibi mascot\x27 character, fulfill this request: \x27"
      ++ prompt ++ "\x27")
    :: (CHIBI_STYLE_GUIDE_URIS bucket).map (fun u => PromptPart.uri u "image/png")

/-- The `prompt_parts` list the robot tool sends (src/api/index.py
lines 89-90). -/
def robotPromptParts (bucket : Option String) (prompt : String) : List PromptPart :=
  PromptPart.text ("Using the " ++ toString (ROBOT_STYLE_GUIDE_URIS bucket).length
      ++ " uploaded images as a visual style reference for the \x27red robot\x27 character, fulfill this request: \x27"
      ++ prompt ++ "\x27")
    :: (ROBOT_STYLE_GUIDE_URIS bucket).map (fun u => PromptPart.uri u "image/png")

/-- The request the general tool sends: the raw prompt only
(src/api/index.py line 111). -/
def generalPromptParts (prompt : String) : List PromptPart :=
  [PromptPart.text prompt]

/-- The `try` body of `generate_chibi_image` (src/api/index.py lines
69-81) as an `Except` computation; `Except.error` is a raised Python
exception carrying its message.  `candidates[0]` on an empty list
raises an `IndexError`. -/
def chibiTry (bucket : Option String) (prompt : String) (env : ImageEnv) :
    Except String ToolResult :=
  match env.gen (chibiPromptParts bucket prompt) with
  | Except.error e => Except.error e
  | Except.ok response =>
    match response.candidates with
    | [] => Except.error "list index out of range"
    | cand :: _ =>
      match findInline cand.content.parts with
      | none => Except.error "Model did not return an image."
      | some blob =>
        let file_name := "outputs/chibi_" ++ env.uuid ++ ".png"
        match env.upload ⟨file_name, blob.data, "image/png"⟩ with
        | Except.error e => Except.error e
        | Except.ok _ =>
          match env.makePublic file_name with
          | Except.error e => Except.error e
          | Except.ok _ => Except.ok ⟨"image", publicUrl bucket file_name⟩

/-- Models `generate_chibi_image` (src/api/index.py lines 63-83): the
`try` body with its `except` clause turning any exception into an
error-text result. -/
def generate_chibi_image (bucket : Option String) (prompt : String) (env : ImageEnv) :
    ToolResult :=
  match chibiTry bucket prompt env with
  | Except.ok r => r
  | Except.error e => ⟨"text", "Error generating Chibi image: " ++ e⟩

/-- The `try` body of `generate_robot_image` (src/api/index.py lines
91-103). -/
def robotTry (bucket : Option String) (prompt : String) (env : ImageEnv) :
    Except String ToolResult :=
  match env.gen (robotPromptParts bucket prompt) with
  | Except.error e => Except.error e
  | Except.ok response =>
    match response.candidates with
    | [] => Except.error "list index out of range"
    | cand :: _ =>
      match findInline cand.content.parts with
      | none => Except.error "Model did not return an image."
      | some blob =>
        let file_name := "outputs/robot_" ++ env.uuid ++ ".png"
        match env.upload ⟨file_name, blob.data, "image/png"⟩ with
        | Except.error e => Except.error e
        | Except.ok _ =>
          match env.makePublic file_name with
          | Except.error e => Except.error e
          | Except.ok _ => Except.ok ⟨"image", publicUrl bucket file_name⟩

/-- Models `generate_robot_image` (src/api/index.py lines 85-105). -/
def generate_robot_image (bucket : Option String) (prompt : String) (env : ImageEnv) :
    ToolResult :=
  match robotTry bucket prompt env with
  | Except.ok r => r
  | Except.error e => ⟨"text", "Error generating Robot image: " ++ e⟩

/-- The `try` body of `generate_general_image` (src/api/index.py lines
110-122). -/
def generalTry (bucket : Option String) (prompt : String) (env : ImageEnv) :
    Except String ToolResult :=
  match env.gen (generalPromptParts prompt) with
  | Except.error e => Except.error e
  | Except.ok response =>
    match response.candidates with
    | [] => Except.error "list index out of range"
    | cand :: _ =>
      match findInline cand.content.parts with
      | none => Except.error "Model did not return an image."
      | some blob =>
        let file_name := "outputs/general_" ++ env.uuid ++ ".png"
        match env.upload ⟨file_name, blob.data, "image/png"⟩ with
        | Except.error e => Except.error e
        | Except.ok _ =>
          match env.makePublic file_name with
          | Except.error e => Except.error e
          | Except.ok _ => Except.ok ⟨"image", publicUrl bucket file_name⟩

/-- Models `generate_general_image` (src/api/index.py lines 107-124);
note the lower-case "general" in its error text. -/
def generate_general_image (bucket : Option String) (prompt : String) (env : ImageEnv) :
    ToolResult :=
  match generalTry bucket prompt env with
  | Except.ok r => r
  | Except.error e => ⟨"text", "Error generating general image: " ++ e⟩

/-- Models `generate_diagram_code` (src/api/index.py lines 126-135):
the response text is returned verbatim as a diagram result, with no
validation of the text; an exception becomes an error-text result. -/
def generate_diagram_code (topic : String) (remote : RemoteText) : ToolResult :=
  match remote with
  | RemoteText.returns text => ⟨"diagram", text⟩
  | RemoteText.raises e => ⟨"text", "Error generating diagram: " ++ e⟩

/-! ### The `/generate` endpoint -/

/-- The request body of `POST /generate`. -/
structure PromptRequest where
  prompt : String

/-- The handler's response value: `res r` is the dict returned by a
tool function; `empty` is the locally initialized `result = {}` dict,
returned only if no dispatch branch matched. -/
inductive HandlerResult where
  | res (r : ToolResult)
  | empty

/-- Oracle inputs for one `/generate` request: the routing call's
outcome and each tool's environment (only the dispatched tool's
environment is consumed). -/
structure RequestWorld where
  routing : RemoteText
  chibi : ImageEnv
  robot : ImageEnv
  general : ImageEnv
  diagram : RemoteText

/-- Models `handle_generation` (src/api/index.py lines 178-197): ask
the routing function for a tool and prompt, dispatch through the
`if`/`elif` chain, return the selected tool's result. -/
def handle_generation (bucket : Option String) (w : RequestWorld)
    (request : PromptRequest) : HandlerResult :=
  let decision := get_agent_decision request.prompt w.routing
  let tool_to_use := decision.1
  let task_prompt := decision.2
  if tool_to_use = "chibi" then
    HandlerResult.res (generate_chibi_image bucket task_prompt w.chibi)
  else if tool_to_use = "robot" then
    HandlerResult.res (generate_robot_image bucket task_prompt w.robot)
  else if tool_to_use = "diagram" then
    HandlerResult.res (generate_diagram_code task_prompt w.diagram)
  else if tool_to_use = "general" then
    HandlerResult.res (generate_general_image bucket task_prompt w.general)
  else HandlerResult.empty

/-! ### Module initialization (configuration loading) -/

/-- The credential object produced by a successful
`from_service_account_info` call; it retains the parsed key fields. -/
structure SACredentials where
  info : List (String × JsonValue)

/-- Modelled from the library contract of
`google.oauth2.service_account.Credentials.from_service_account_info`
(an external dependency, not part of this repository): it raises a
`ValueError` — not a `json.JSONDecodeError` — unless its argument is a
dict containing the required fields `client_email`, `token_uri` and
`private_key`; PEM parsing of the private key is abstracted as
succeeding whenever the field is present. -/
def from_service_account_info : JsonValue → Except String SACredentials
  | JsonValue.obj ms =>
    if (lastAssoc ms "client_email").isSome
        && (lastAssoc ms "token_uri").isSome
        && (lastAssoc ms "private_key").isSome then
      Except.ok ⟨ms⟩
    else Except.error "Service account info was not in the expected format."
  | _ => Except.error "Service account info was not in the expected format."

/-- The configuration state after a successful module import. -/
structure ModuleConfig where
  PROJECT_ID : Option String
  BUCKET_NAME : Option String
  credentials : SACredentials

/-- Models the module-level initialization (src/api/index.py lines
33-59) over an environment-variable map.  `Except.error` is a raised
exception aborting the import.  `os.environ.get` returns `None` for an
absent variable (no error); `if not GCP_SA_KEY_STRING` is Python
falsiness, so an empty string also raises; only `json.JSONDecodeError`
is caught around `from_service_account_info`, so a `ValueError` from
invalid service-account info propagates.  The client and model
constructors (`vertexai.init`, `storage.Client`, `bucket`,
`GenerativeModel`) perform no eager validation or network calls and are
modelled as non-raising. -/
def loadModuleConfig (env : String → Option String) : Except String ModuleConfig :=
  let PROJECT_ID := env "PROJECT_ID"
  let BUCKET_NAME := env "BUCKET_NAME"
  match env "GCP_SA_KEY" with
  | none => Except.error "GCP_SA_KEY environment variable is not set."
  | some s =>
    if s = "" then Except.error "GCP_SA_KEY environment variable is not set."
    else
      match json_loads s with
      | none => Except.error "GCP_SA_KEY is not a valid JSON string."
      | some v =>
        match from_service_account_info v with
        | Except.error e => Except.error e
        | Except.ok creds => Except.ok ⟨PROJECT_ID, BUCKET_NAME, creds⟩

/-- The three result types a tool can produce. -/
def resultTypes : List String := ["image", "diagram", "text"]

/-- A sample response whose single candidate has two parts, neither
carrying inline data. -/
def textOnlyResponse : GenResponse :=
  ⟨[⟨⟨[⟨none⟩, ⟨none⟩]⟩⟩]⟩

/-- A sample image-tool environment whose model call returns only text
parts and whose storage operations succeed. -/
def textOnlyEnv : ImageEnv :=
  ⟨fun _ => Except.ok textOnlyResponse, fun _ => Except.ok (), fun _ => Except.ok (), "u0"⟩

/-- A sample response whose single candidate carries inline image
bytes in its second part. -/
def inlineResponse : GenResponse :=
  ⟨[⟨⟨[⟨none⟩, ⟨some ⟨[137, 80, 78, 71]⟩⟩]⟩⟩]⟩

/-- A sample image-tool environment whose model call yields
`inlineResponse` and whose storage operations succeed. -/
def inlineEnv : ImageEnv :=
  ⟨fun _ => Except.ok inlineResponse, fun _ => Except.ok (), fun _ => Except.ok (), "u1"⟩

/-- A request world whose routing call fails, so the decision defaults
to the general tool. -/
def failingRoutingWorld : RequestWorld :=
  ⟨RemoteText.raises "network down", textOnlyEnv, textOnlyEnv, textOnlyEnv,
    RemoteText.returns "graph TD"⟩

/-- The classification-response text the models emit for tool value
`v`: the JSON object with single member `tool` holding the string `v`
(written through its character list). -/
def toolJson (v : String) : String :=
  String.mk (lbrace :: '"' :: 't' :: 'o' :: 'o' :: 'l' :: '"' :: ':' :: ' ' :: '"'
    :: (v.data ++ ['"', rbrace]))

/-- An environment whose only variable is GCP_SA_KEY holding the valid
JSON text of the empty object: valid JSON, but not valid
service-account info. -/
def envCex : String → Option String :=
  fun k => if k = "GCP_SA_KEY" then some "\x7b\x7d" else none

/-- An environment whose only variable is GCP_SA_KEY holding a
structurally valid service-account JSON object; PROJECT_ID and
BUCKET_NAME are unset. -/
def envOk : String → Option String :=
  fun k =>
    if k = "GCP_SA_KEY" then
      some "\x7b\"client_email\": \"a\", \"token_uri\": \"b\", \"private_key\": \"c\"\x7d"
    else none

/-- A sample image-tool environment whose remote generation call
raises. -/
def downEnv : ImageEnv :=
  ⟨fun _ => Except.error "boom", fun _ => Except.ok (), fun _ => Except.ok (), "u2"⟩

/-! ### Shared lemmas about the routing function -/

/-- The first component of every routing decision is one of the four
known tool names. -/
theorem routing_fst_mem (p : String) (r : RemoteText) :
    (get_agent_decision p r).1 ∈ knownTools := by
  cases r with
  | raises m => simp [get_agent_decision, knownTools]
  | returns t =>
    simp only [get_agent_decision]
    cases h1 : json_loads (fenceStrip t) with
    | none => simp [h1, knownTools]
    | some d =>
      cases h2 : pyToolLookup d with
      | none => simp [h1, h2, knownTools]
      | some tool =>
        by_cases h : tool ∈ knownTools
        · simpa [h1, h2, h] using h
        · have h' : ¬(tool = "chibi" ∨ tool = "robot" ∨ tool = "diagram" ∨ tool = "general") := by
            simpa [knownTools] using h
          simp [h1, h2, h', knownTools]

/-- The routing function echoes the user prompt unchanged as the second
component of its result, on every path. -/
theorem routing_snd (p : String) (r : RemoteText) :
    (get_agent_decision p r).2 = p := by
  cases r with
  | raises m => simp [get_agent_decision]
  | returns t =>
    simp only [get_agent_decision]
    cases h1 : json_loads (fenceStrip t) with
    | none => simp [h1]
    | some d =>
      cases h2 : pyToolLookup d with
      | none => simp [h1, h2]
      | some tool =>
        by_cases h : tool ∈ knownTools <;> simp [h1, h2, h]

/-! ### Claim theorems -/

/-- Claim C1: for every user prompt and every outcome of the remote
classification call, `get_agent_decision` returns a tool name among
exactly chibi, robot, diagram, general; a raised remote call, invalid
JSON, a missing `tool` key, and a `tool` value outside the four names
after lower-casing each yield `general`; and the function is total
(never raises past its boundary), every failure path returning the
pair (general, prompt). -/
theorem c1_routing_total_and_safe (p : String) (r : RemoteText) :
    (get_agent_decision p r).1 ∈ knownTools
    ∧ (∀ m, r = RemoteText.raises m → get_agent_decision p r = ("general", p))
    ∧ (∀ t, r = RemoteText.returns t → json_loads (fenceStrip t) = none →
        get_agent_decision p r = ("general", p))
    ∧ (∀ t ms, r = RemoteText.returns t →
        json_loads (fenceStrip t) = some (JsonValue.obj ms) →
        lastAssoc ms "tool" = none → get_agent_decision p r = ("general", p))
    ∧ (∀ t ms sv, r = RemoteText.returns t →
        json_loads (fenceStrip t) = some (JsonValue.obj ms) →
        lastAssoc ms "tool" = some (JsonValue.str sv) →
        pyLower sv ∉ knownTools → get_agent_decision p r = ("general", p)) := by
  refine ⟨routing_fst_mem p r, ?_, ?_, ?_, ?_⟩
  · rintro m rfl
    rfl
  · rintro t rfl h
    simp [get_agent_decision, h]
  · rintro t ms rfl h hms
    simp [get_agent_decision, h, pyToolLookup, hms, knownTools]
  · rintro t ms sv rfl h hms hlow
    simp [get_agent_decision, h, pyToolLookup, hms, hlow]

/-- Claim C1 witness: the malformed-response and remote-failure paths
at concrete inputs. -/
theorem c1_routing_total_and_safe_witness :
    get_agent_decision "hi" (RemoteText.returns "not json") = ("general", "hi") :=
  (c1_routing_total_and_safe "hi" (RemoteText.returns "not json")).2.2.1
    "not json" rfl (by rfl)

/-- A successful chibi `try` body always produced the fixed image
result for the generated blob name. -/
theorem chibiTry_ok_shape (b : Option String) (p : String) (env : ImageEnv)
    (r : ToolResult) (h : chibiTry b p env = Except.ok r) :
    r = ⟨"image", publicUrl b ("outputs/chibi_" ++ env.uuid ++ ".png")⟩ := by
  unfold chibiTry at h
  cases hg : env.gen (chibiPromptParts b p) with
  | error e => simp [hg] at h
  | ok resp =>
    simp only [hg] at h
    cases hc : resp.candidates with
    | nil => simp [hc] at h
    | cons cand rest =>
      simp only [hc] at h
      cases hf : findInline cand.content.parts with
      | none => simp [hf] at h
      | some blob =>
        simp only [hf] at h
        cases hu : env.upload ⟨"outputs/chibi_" ++ env.uuid ++ ".png", blob.data, "image/png"⟩ with
        | error e => simp [hu] at h
        | ok u =>
          simp only [hu] at h
          cases hm : env.makePublic ("outputs/chibi_" ++ env.uuid ++ ".png") with
          | error e => simp [hm] at h
          | ok v =>
            simp only [hm, Except.ok.injEq] at h
            exact h.symm

/-- A successful robot `try` body always produced the fixed image
result for the generated blob name. -/
theorem robotTry_ok_shape (b : Option String) (p : String) (env : ImageEnv)
    (r : ToolResult) (h : robotTry b p env = Except.ok r) :
    r = ⟨"image", publicUrl b ("outputs/robot_" ++ env.uuid ++ ".png")⟩ := by
  unfold robotTry at h
  cases hg : env.gen (robotPromptParts b p) with
  | error e => simp [hg] at h
  | ok resp =>
    simp only [hg] at h
    cases hc : resp.candidates with
    | nil => simp [hc] at h
    | cons cand rest =>
      simp only [hc] at h
      cases hf : findInline cand.content.parts with
      | none => simp [hf] at h
      | some blob =>
        simp only [hf] at h
        cases hu : env.upload ⟨"outputs/robot_" ++ env.uuid ++ ".png", blob.data, "image/png"⟩ with
        | error e => simp [hu] at h
        | ok u =>
          simp only [hu] at h
          cases hm : env.makePublic ("outputs/robot_" ++ env.uuid ++ ".png") with
          | error e => simp [hm] at h
          | ok v =>
            simp only [hm, Except.ok.injEq] at h
            exact h.symm

/-- A successful general `try` body always produced the fixed image
result for the generated blob name. -/
theorem generalTry_ok_shape (b : Option String) (p : String) (env : ImageEnv)
    (r : ToolResult) (h : generalTry b p env = Except.ok r) :
    r = ⟨"image", publicUrl b ("outputs/general_" ++ env.uuid ++ ".png")⟩ := by
  unfold generalTry at h
  cases hg : env.gen (generalPromptParts p) with
  | error e => simp [hg] at h
  | ok resp =>
    simp only [hg] at h
    cases hc : resp.candidates with
    | nil => simp [hc] at h
    | cons cand rest =>
      simp only [hc] at h
      cases hf : findInline cand.content.parts with
      | none => simp [hf] at h
      | some blob =>
        simp only [hf] at h
        cases hu : env.upload ⟨"outputs/general_" ++ env.uuid ++ ".png", blob.data, "image/png"⟩ with
        | error e => simp [hu] at h
        | ok u =>
          simp only [hu] at h
          cases hm : env.makePublic ("outputs/general_" ++ env.uuid ++ ".png") with
          | error e => simp [hm] at h
          | ok v =>
            simp only [hm, Except.ok.injEq] at h
            exact h.symm

/-- Claim C2: each image tool is total (never raises past its
boundary): for every prompt and every outcome of the remote generation
call, the image extraction and the storage operations, the result is
either an image result or the error-text result
"Error generating (style) image: (message)". -/
theorem c2_image_tools_never_raise (b : Option String) (p : String) (env : ImageEnv) :
    ((∃ u, generate_chibi_image b p env = ⟨"image", u⟩)
      ∨ (∃ m, generate_chibi_image b p env
          = ⟨"text", "Error generating Chibi image: " ++ m⟩))
    ∧ ((∃ u, generate_robot_image b p env = ⟨"image", u⟩)
      ∨ (∃ m, generate_robot_image b p env
          = ⟨"text", "Error generating Robot image: " ++ m⟩))
    ∧ ((∃ u, generate_general_image b p env = ⟨"image", u⟩)
      ∨ (∃ m, generate_general_image b p env
          = ⟨"text", "Error generating general image: " ++ m⟩))
    ∧ (∀ e, chibiTry b p env = Except.error e →
        generate_chibi_image b p env = ⟨"text", "Error generating Chibi image: " ++ e⟩)
    ∧ (∀ e, robotTry b p env = Except.error e →
        generate_robot_image b p env = ⟨"text", "Error generating Robot image: " ++ e⟩)
    ∧ (∀ e, generalTry b p env = Except.error e →
        generate_general_image b p env
          = ⟨"text", "Error generating general image: " ++ e⟩) := by
  refine ⟨?_, ?_, ?_, ?_, ?_, ?_⟩
  · cases h : chibiTry b p env with
    | ok r =>
      exact Or.inl ⟨publicUrl b ("outputs/chibi_" ++ env.uuid ++ ".png"),
        by simp [generate_chibi_image, h, chibiTry_ok_shape b p env r h]⟩
    | error e => exact Or.inr ⟨e, by simp [generate_chibi_image, h]⟩
  · cases h : robotTry b p env with
    | ok r =>
      exact Or.inl ⟨publicUrl b ("outputs/robot_" ++ env.uuid ++ ".png"),
        by simp [generate_robot_image, h, robotTry_ok_shape b p env r h]⟩
    | error e => exact Or.inr ⟨e, by simp [generate_robot_image, h]⟩
  · cases h : generalTry b p env with
    | ok r =>
      exact Or.inl ⟨publicUrl b ("outputs/general_" ++ env.uuid ++ ".png"),
        by simp [generate_general_image, h, generalTry_ok_shape b p env r h]⟩
    | error e => exact Or.inr ⟨e, by simp [generate_general_image, h]⟩
  · intro e he
    simp [generate_chibi_image, he]
  · intro e he
    simp [generate_robot_image, he]
  · intro e he
    simp [generate_general_image, he]

/-- Claim C2 witness: a raised generation call at a concrete
environment yields the error-text result for the chibi tool. -/
theorem c2_image_tools_never_raise_witness :
    generate_chibi_image none "x" downEnv
      = ⟨"text", "Error generating Chibi image: boom"⟩ :=
  (c2_image_tools_never_raise none "x" downEnv).2.2.2.1 "boom" rfl

/-- Claim C4: every result object of the four tool functions, on every
path including error paths, has `type` among image, diagram, text (and,
by the `ToolResult` structure mirroring the source's two-key dict
literals, exactly the two fields type and content). -/
theorem c4_result_envelope (b : Option String) (p : String) (env : ImageEnv)
    (topic : String) (remote : RemoteText) :
    (generate_chibi_image b p env).type ∈ resultTypes
    ∧ (generate_robot_image b p env).type ∈ resultTypes
    ∧ (generate_general_image b p env).type ∈ resultTypes
    ∧ (generate_diagram_code topic remote).type ∈ resultTypes := by
  refine ⟨?_, ?_, ?_, ?_⟩
  · cases h : chibiTry b p env with
    | ok r => simp [generate_chibi_image, h, chibiTry_ok_shape b p env r h, resultTypes]
    | error e => simp [generate_chibi_image, h, resultTypes]
  · cases h : robotTry b p env with
    | ok r => simp [generate_robot_image, h, robotTry_ok_shape b p env r h, resultTypes]
    | error e => simp [generate_robot_image, h, resultTypes]
  · cases h : generalTry b p env with
    | ok r => simp [generate_general_image, h, generalTry_ok_shape b p env r h, resultTypes]
    | error e => simp [generate_general_image, h, resultTypes]
  · cases remote with
    | returns t => simp [generate_diagram_code, resultTypes]
    | raises m => simp [generate_diagram_code, resultTypes]

/-- When no part carries inline data, the scan finds nothing. -/
theorem findInline_eq_none (parts : List RespPart)
    (h : ∀ pt ∈ parts, pt.inline_data = none) : findInline parts = none := by
  induction parts with
  | nil => rfl
  | cons pt rest ih =>
    have hpt := h pt (List.mem_cons_self pt rest)
    simp [findInline, hpt]
    exact ih (fun q hq => h q (List.mem_cons_of_mem pt hq))

/-- The scan returns the first part carrying inline data, in order. -/
theorem findInline_first (ps : List RespPart) (pt : RespPart) (qs : List RespPart)
    (bl : InlineBlob) (hps : ∀ q ∈ ps, q.inline_data = none)
    (hpt : pt.inline_data = some bl) :
    findInline (ps ++ pt :: qs) = some bl := by
  induction ps with
  | nil => simp [findInline, hpt]
  | cons q rest ih =>
    have hq := hps q (List.mem_cons_self q rest)
    simp [findInline, hq]
    exact ih (fun x hx => hps x (List.mem_cons_of_mem q hx))

/-- Claim C5: each image tool uses the first response part carrying
inline binary image data, scanning in order; when no part carries
inline data, the tool returns the error-text result
"Error generating (style) image: Model did not return an image."
(whose content contains "Error generating") instead of raising. -/
theorem c5_first_inline_part (b : Option String) (p : String) (env : ImageEnv) :
    (∀ parts, (∀ pt ∈ parts, pt.inline_data = none) → findInline parts = none)
    ∧ (∀ ps pt qs bl, (∀ q ∈ ps, q.inline_data = none) → pt.inline_data = some bl →
        findInline (ps ++ pt :: qs) = some bl)
    ∧ (∀ resp cand rest, env.gen (chibiPromptParts b p) = Except.ok resp →
        resp.candidates = cand :: rest →
        (∀ pt ∈ cand.content.parts, pt.inline_data = none) →
        generate_chibi_image b p env
          = ⟨"text", "Error generating Chibi image: Model did not return an image."⟩)
    ∧ (∀ resp cand rest, env.gen (robotPromptParts b p) = Except.ok resp →
        resp.candidates = cand :: rest →
        (∀ pt ∈ cand.content.parts, pt.inline_data = none) →
        generate_robot_image b p env
          = ⟨"text", "Error generating Robot image: Model did not return an image."⟩)
    ∧ (∀ resp cand rest, env.gen (generalPromptParts p) = Except.ok resp →
        resp.candidates = cand :: rest →
        (∀ pt ∈ cand.content.parts, pt.inline_data = none) →
        generate_general_image b p env
          = ⟨"text", "Error generating general image: Model did not return an image."⟩) := by
  refine ⟨findInline_eq_none, fun ps pt qs bl h1 h2 => findInline_first ps pt qs bl h1 h2,
    ?_, ?_, ?_⟩
  · intro resp cand rest hg hc hparts
    simp [generate_chibi_image, chibiTry, hg, hc, findInline_eq_none _ hparts]
  · intro resp cand rest hg hc hparts
    simp [generate_robot_image, robotTry, hg, hc, findInline_eq_none _ hparts]
  · intro resp cand rest hg hc hparts
    simp [generate_general_image, generalTry, hg, hc, findInline_eq_none _ hparts]

/-- Claim C5 witness: a response with no inline image data makes the
chibi tool return the error-text result. -/
theorem c5_first_inline_part_witness :
    generate_chibi_image none "a cat" textOnlyEnv
      = ⟨"text", "Error generating Chibi image: Model did not return an image."⟩ :=
  (c5_first_inline_part none "a cat" textOnlyEnv).2.2.1 textOnlyResponse
    ⟨⟨[⟨none⟩, ⟨none⟩]⟩⟩ [] rfl rfl (by intro pt hpt; simp [textOnlyResponse] at hpt; simp [hpt])

/-- Claim C6: for every prompt and bucket configuration, the chibi
request carries exactly the 14 fixed reference URIs, appended in the
hardcoded order after the instruction text; the robot request carries
exactly the 9 fixed robot URIs; the general request is the raw prompt
alone, with no reference URIs. -/
theorem c6_fixed_reference_uris (b : Option String) (p : String) :
    (CHIBI_STYLE_GUIDE_URIS b).length = 14
    ∧ (ROBOT_STYLE_GUIDE_URIS b).length = 9
    ∧ (chibiPromptParts b p).filterMap partUri = CHIBI_STYLE_GUIDE_URIS b
    ∧ (robotPromptParts b p).filterMap partUri = ROBOT_STYLE_GUIDE_URIS b
    ∧ (∃ instr, chibiPromptParts b p
        = PromptPart.text instr
          :: (CHIBI_STYLE_GUIDE_URIS b).map (fun u => PromptPart.uri u "image/png"))
    ∧ (∃ instr, robotPromptParts b p
        = PromptPart.text instr
          :: (ROBOT_STYLE_GUIDE_URIS b).map (fun u => PromptPart.uri u "image/png"))
    ∧ generalPromptParts p = [PromptPart.text p]
    ∧ (generalPromptParts p).filterMap partUri = [] :=
  ⟨rfl, rfl, rfl, rfl, ⟨_, rfl⟩, ⟨_, rfl⟩, rfl, rfl⟩

/-- Claim C7: on the success path (the generation call returns a
response whose first candidate yields inline image bytes, and both
storage operations succeed), each image tool uploads those bytes under
the key outputs/(style)_(uuid).png with content-type image/png, marks
the object public, and returns the image result carrying the object's
public URL.  The storage hypotheses are stated at exactly the
`StorageRequest` the code issues, which pins down the key and the
content-type. -/
theorem c7_success_path (b : Option String) (p : String) (env : ImageEnv) :
    (∀ resp cand rest blob, env.gen (chibiPromptParts b p) = Except.ok resp →
      resp.candidates = cand :: rest →
      findInline cand.content.parts = some blob →
      env.upload ⟨"outputs/chibi_" ++ env.uuid ++ ".png", blob.data, "image/png"⟩
        = Except.ok () →
      env.makePublic ("outputs/chibi_" ++ env.uuid ++ ".png") = Except.ok () →
      generate_chibi_image b p env
        = ⟨"image", publicUrl b ("outputs/chibi_" ++ env.uuid ++ ".png")⟩)
    ∧ (∀ resp cand rest blob, env.gen (robotPromptParts b p) = Except.ok resp →
      resp.candidates = cand :: rest →
      findInline cand.content.parts = some blob →
      env.upload ⟨"outputs/robot_" ++ env.uuid ++ ".png", blob.data, "image/png"⟩
        = Except.ok () →
      env.makePublic ("outputs/robot_" ++ env.uuid ++ ".png") = Except.ok () →
      generate_robot_image b p env
        = ⟨"image", publicUrl b ("outputs/robot_" ++ env.uuid ++ ".png")⟩)
    ∧ (∀ resp cand rest blob, env.gen (generalPromptParts p) = Except.ok resp →
      resp.candidates = cand :: rest →
      findInline cand.content.parts = some blob →
      env.upload ⟨"outputs/general_" ++ env.uuid ++ ".png", blob.data, "image/png"⟩
        = Except.ok () →
      env.makePublic ("outputs/general_" ++ env.uuid ++ ".png") = Except.ok () →
      generate_general_image b p env
        = ⟨"image", publicUrl b ("outputs/general_" ++ env.uuid ++ ".png")⟩) := by
  refine ⟨?_, ?_, ?_⟩
  · intro resp cand rest blob hg hc hf hu hm
    simp [generate_chibi_image, chibiTry, hg, hc, hf, hu, hm]
  · intro resp cand rest blob hg hc hf hu hm
    simp [generate_robot_image, robotTry, hg, hc, hf, hu, hm]
  · intro resp cand rest blob hg hc hf hu hm
    simp [generate_general_image, generalTry, hg, hc, hf, hu, hm]

/-- Claim C7 witness: the chibi success path at a concrete
environment, producing the public URL of outputs/chibi_u1.png. -/
theorem c7_success_path_witness :
    generate_chibi_image (some "bkt") "a dog" inlineEnv
      = ⟨"image", "https://storage.googleapis.com/bkt/outputs/chibi_u1.png"⟩ :=
  (c7_success_path (some "bkt") "a dog" inlineEnv).1 inlineResponse
    ⟨⟨[⟨none⟩, ⟨some ⟨[137, 80, 78, 71]⟩⟩]⟩⟩ [] ⟨[137, 80, 78, 71]⟩
    rfl rfl rfl rfl rfl

/-- Claim C3: for every request, the handler calls the routing
function, which echoes the original prompt unchanged; whenever the
decision names a tool, the handler returns exactly that tool's result
on the original prompt; and since the decision is always one of the
four names, the locally initialized empty dict is never the response. -/
theorem c3_dispatch_verbatim (b : Option String) (w : RequestWorld)
    (req : PromptRequest) :
    (get_agent_decision req.prompt w.routing).2 = req.prompt
    ∧ ((get_agent_decision req.prompt w.routing).1 = "chibi" →
        handle_generation b w req
          = HandlerResult.res (generate_chibi_image b req.prompt w.chibi))
    ∧ ((get_agent_decision req.prompt w.routing).1 = "robot" →
        handle_generation b w req
          = HandlerResult.res (generate_robot_image b req.prompt w.robot))
    ∧ ((get_agent_decision req.prompt w.routing).1 = "diagram" →
        handle_generation b w req
          = HandlerResult.res (generate_diagram_code req.prompt w.diagram))
    ∧ ((get_agent_decision req.prompt w.routing).1 = "general" →
        handle_generation b w req
          = HandlerResult.res (generate_general_image b req.prompt w.general))
    ∧ (∃ r, handle_generation b w req = HandlerResult.res r)
    ∧ handle_generation b w req ≠ HandlerResult.empty := by
  have hsnd := routing_snd req.prompt w.routing
  have hmem := routing_fst_mem req.prompt w.routing
  have hres : ∃ r, handle_generation b w req = HandlerResult.res r := by
    simp only [knownTools, List.mem_cons, List.not_mem_nil, or_false] at hmem
    rcases hmem with h | h | h | h
    · exact ⟨generate_chibi_image b req.prompt w.chibi,
        by simp [handle_generation, h, hsnd]⟩
    · exact ⟨generate_robot_image b req.prompt w.robot,
        by simp [handle_generation, h, hsnd]⟩
    · exact ⟨generate_diagram_code req.prompt w.diagram,
        by simp [handle_generation, h, hsnd]⟩
    · exact ⟨generate_general_image b req.prompt w.general,
        by simp [handle_generation, h, hsnd]⟩
  refine ⟨hsnd, ?_, ?_, ?_, ?_, hres, ?_⟩
  · intro h
    simp [handle_generation, h, hsnd]
  · intro h
    simp [handle_generation, h, hsnd]
  · intro h
    simp [handle_generation, h, hsnd]
  · intro h
    simp [handle_generation, h, hsnd]
  · rcases hres with ⟨r, hr⟩
    rw [hr]
    intro hcontra
    exact HandlerResult.noConfusion hcontra

/-- Claim C3 witness: with a failing routing call, the handler returns
exactly the general tool's result on the original prompt. -/
theorem c3_dispatch_verbatim_witness :
    handle_generation none failingRoutingWorld ⟨"hello"⟩
      = HandlerResult.res (generate_general_image none "hello" textOnlyEnv) :=
  (c3_dispatch_verbatim none failingRoutingWorld ⟨"hello"⟩).2.2.2.2.1 rfl

/-- Claim C8: for every topic, `generate_diagram_code` wraps the raw
response text verbatim as a diagram result — no validation of the text
as diagram syntax is performed, since every response text is accepted —
and a raised remote call yields the error-text result instead of
propagating. -/
theorem c8_diagram_verbatim_or_error (topic : String) :
    (∀ text, generate_diagram_code topic (RemoteText.returns text)
      = ⟨"diagram", text⟩)
    ∧ (∀ m, generate_diagram_code topic (RemoteText.raises m)
      = ⟨"text", "Error generating diagram: " ++ m⟩) :=
  ⟨fun _ => rfl, fun _ => rfl⟩

/-! ### Lemmas for the code-fence stripping claim -/

/-- Rebuilding a string from its character data is the identity. -/
theorem string_mk_data (s : String) : String.mk s.data = s := by
  cases s
  rfl

/-- A string body starting with the closing quote parses to the empty
string. -/
theorem parseJStr_quote (rest : List Char) : parseJStr ('"' :: rest) = some ("", rest) := by
  rw [parseJStr.eq_def]
  simp

/-- A plain (non-quote, non-backslash) character is consumed into the
parsed string. -/
theorem parseJStr_plain (c : Char) (cs : List Char) (h1 : ¬c = '"') (h2 : ¬c = '\\') :
    parseJStr (c :: cs)
      = (parseJStr cs).map (fun sr => (String.mk (c :: sr.1.data), sr.2)) := by
  rw [parseJStr.eq_def]
  simp only [h1, if_false, h2]
  cases parseJStr cs with
  | none => rfl
  | some sr => cases sr with | mk s r => rfl

/-- A run of plain characters followed by a closing quote parses to
exactly that run. -/
theorem parseJStr_closed (l : List Char) (rest : List Char)
    (h : ∀ c ∈ l, ¬c = '"' ∧ ¬c = '\\') :
    parseJStr (l ++ '"' :: rest) = some (String.mk l, rest) := by
  induction l with
  | nil => simpa using parseJStr_quote rest
  | cons c l ih =>
    have hc := h c (List.mem_cons_self c l)
    rw [List.cons_append, parseJStr_plain c _ hc.1 hc.2,
      ih (fun x hx => h x (List.mem_cons_of_mem c hx))]
    rfl

/-- Parsing the single-member object text `(lbrace)"tool": "(v)"(rbrace)`
yields the object with the one member `tool` holding `v`, for any
residual input and any fuel reserve. -/
theorem parseVal_toolObj (f : Nat) (v : String) (rest : List Char)
    (hv : ∀ c ∈ v.data, ¬c = '"' ∧ ¬c = '\\') :
    parseVal (f + 3)
      (lbrace :: '"' :: 't' :: 'o' :: 'o' :: 'l' :: '"' :: ':' :: ' ' :: '"'
        :: (v.data ++ '"' :: rbrace :: rest))
      = some (JsonValue.obj [("tool", JsonValue.str v)], rest) := by
  have hkey : parseJStr ('t' :: 'o' :: 'o' :: 'l' :: '"'
      :: (':' :: ' ' :: '"' :: (v.data ++ '"' :: rbrace :: rest)))
      = some ("tool", ':' :: ' ' :: '"' :: (v.data ++ '"' :: rbrace :: rest)) := by
    have hfour := parseJStr_closed ['t', 'o', 'o', 'l']
      (':' :: ' ' :: '"' :: (v.data ++ '"' :: rbrace :: rest)) (by decide)
    simpa using hfour
  have hval : parseJStr (v.data ++ '"' :: rbrace :: rest)
      = some (v, rbrace :: rest) := by
    rw [parseJStr_closed v.data _ hv, string_mk_data]
  simp +decide [parseVal, parseMembers, skipJsonWs, lstripBy, isJsonWs, hkey, hval]

/-- Leading JSON whitespace does not affect a parse (the parser skips
it before inspecting the input). -/
theorem parseVal_skip_ws (n : Nat) (c : Char) (cs : List Char) (h : isJsonWs c = true) :
    parseVal (n + 1) (c :: cs) = parseVal (n + 1) cs := by
  simp only [parseVal.eq_def]
  simp [skipJsonWs, lstripBy, h]

/-- Dropping a leading block of characters that all satisfy `p`. -/
theorem lstripBy_append_all (p : Char → Bool) (l cs : List Char)
    (h : ∀ c ∈ l, p c = true) : lstripBy p (l ++ cs) = lstripBy p cs := by
  induction l with
  | nil => rfl
  | cons c l ih =>
    have hc := h c (List.mem_cons_self c l)
    simp [lstripBy, hc, ih (fun x hx => h x (List.mem_cons_of_mem c hx))]

/-- A leading character not satisfying `p` stops the left strip. -/
theorem lstripBy_cons_neg (p : Char → Bool) (c : Char) (cs : List Char)
    (h : p c = false) : lstripBy p (c :: cs) = c :: cs := by
  simp [lstripBy, h]

/-- Dropping a trailing block of characters that all satisfy `p`. -/
theorem rstripBy_append_all (p : Char → Bool) (cs l : List Char)
    (h : ∀ c ∈ l, p c = true) : rstripBy p (cs ++ l) = rstripBy p cs := by
  unfold rstripBy
  rw [List.reverse_append,
    lstripBy_append_all p l.reverse _ (fun c hc => h c (List.mem_reverse.mp hc))]

/-- A trailing character not satisfying `p` stops the right strip. -/
theorem rstripBy_last_neg (p : Char → Bool) (cs : List Char) (c : Char)
    (h : p c = false) : rstripBy p (cs ++ [c]) = cs ++ [c] := by
  unfold rstripBy
  rw [List.reverse_append]
  simp [lstripBy, h]


/-- Core computation of the fence strip on the character list of a
fenced text: the fence prefix and suffix are removed, the two fence
newlines survive. -/
theorem fenceStrip_core (inner : List Char) :
    rstripBy (fun c => c = btick) (lstripBy (fun c => fenceSet.contains c)
      (pyStripWs (btick :: btick :: btick :: 'j' :: 's' :: 'o' :: 'n' :: '\n'
        :: (inner ++ ['\n', btick, btick, btick]))))
      = '\n' :: inner ++ ['\n'] := by
  have e1 : btick :: btick :: btick :: 'j' :: 's' :: 'o' :: 'n' :: '\n'
      :: (inner ++ ['\n', btick, btick, btick])
      = (btick :: btick :: btick :: 'j' :: 's' :: 'o' :: 'n' :: '\n'
        :: (inner ++ ['\n', btick, btick])) ++ [btick] := by
    simp
  have s1 : lstripBy isPyWs (btick :: btick :: btick :: 'j' :: 's' :: 'o' :: 'n' :: '\n'
      :: (inner ++ ['\n', btick, btick, btick]))
      = btick :: btick :: btick :: 'j' :: 's' :: 'o' :: 'n' :: '\n'
      :: (inner ++ ['\n', btick, btick, btick]) :=
    lstripBy_cons_neg _ _ _ (by decide)
  have s2 : rstripBy isPyWs (btick :: btick :: btick :: 'j' :: 's' :: 'o' :: 'n' :: '\n'
      :: (inner ++ ['\n', btick, btick, btick]))
      = btick :: btick :: btick :: 'j' :: 's' :: 'o' :: 'n' :: '\n'
      :: (inner ++ ['\n', btick, btick, btick]) := by
    rw [e1, rstripBy_last_neg _ _ _ (by decide)]
  have s3 : lstripBy (fun c => fenceSet.contains c)
      (btick :: btick :: btick :: 'j' :: 's' :: 'o' :: 'n' :: '\n'
        :: (inner ++ ['\n', btick, btick, btick]))
      = '\n' :: (inner ++ ['\n', btick, btick, btick]) := by
    have e2 : btick :: btick :: btick :: 'j' :: 's' :: 'o' :: 'n' :: '\n'
        :: (inner ++ ['\n', btick, btick, btick])
        = [btick, btick, btick, 'j', 's', 'o', 'n']
          ++ ('\n' :: (inner ++ ['\n', btick, btick, btick])) := by
      simp
    rw [e2, lstripBy_append_all _ _ _ (by decide), lstripBy_cons_neg _ _ _ (by decide)]
  have s4 : rstripBy (fun c => c = btick) ('\n' :: (inner ++ ['\n', btick, btick, btick]))
      = '\n' :: (inner ++ ['\n']) := by
    have e3 : '\n' :: (inner ++ ['\n', btick, btick, btick])
        = ('\n' :: (inner ++ ['\n'])) ++ [btick, btick, btick] := by
      simp
    have e4 : '\n' :: (inner ++ ['\n']) = ('\n' :: inner) ++ ['\n'] := by
      simp
    rw [e3, rstripBy_append_all _ _ _ (by decide), e4,
      rstripBy_last_neg _ _ _ (by decide)]
  rw [pyStripWs, s1, s2, s3, s4]
  simp

/-- Stripping the canonical markdown code fence: `fenceStrip` of the
fence-wrapped text leaves exactly the inner text surrounded by the two
fence newlines, for every inner text. -/
theorem fenceStrip_fenceWrap (s : String) :
    fenceStrip ("```json\n" ++ s ++ "\n```") = String.mk ('\n' :: s.data ++ ['\n']) := by
  have hdata : ("```json\n" ++ s ++ "\n```").data
      = btick :: btick :: btick :: 'j' :: 's' :: 'o' :: 'n' :: '\n'
        :: (s.data ++ ['\n', btick, btick, btick]) := by
    have h1 : ("```json\n" : String).data
        = [btick, btick, btick, 'j', 's', 'o', 'n', '\n'] := by decide
    have h2 : ("\n```" : String).data = ['\n', btick, btick, btick] := by decide
    rw [String.data_append, String.data_append, h1, h2]
    simp
  rw [fenceStrip, hdata, fenceStrip_core]

/-- A bare JSON-object text (starting with the opening brace and
ending with the closing brace) passes through `fenceStrip` unchanged. -/
theorem fenceStrip_braced (s : String) (mid : List Char)
    (hdata : s.data = lbrace :: (mid ++ [rbrace])) : fenceStrip s = s := by
  have e1 : lbrace :: (mid ++ [rbrace]) = (lbrace :: mid) ++ [rbrace] := by simp
  have s1 : lstripBy isPyWs (lbrace :: (mid ++ [rbrace]))
      = lbrace :: (mid ++ [rbrace]) :=
    lstripBy_cons_neg _ _ _ (by decide)
  have s2 : rstripBy isPyWs (lbrace :: (mid ++ [rbrace]))
      = lbrace :: (mid ++ [rbrace]) := by
    rw [e1, rstripBy_last_neg _ _ _ (by decide)]
  have s3 : lstripBy (fun c => fenceSet.contains c) (lbrace :: (mid ++ [rbrace]))
      = lbrace :: (mid ++ [rbrace]) :=
    lstripBy_cons_neg _ _ _ (by decide)
  have s4 : rstripBy (fun c => c = btick) (lbrace :: (mid ++ [rbrace]))
      = lbrace :: (mid ++ [rbrace]) := by
    rw [e1, rstripBy_last_neg _ _ _ (by decide)]
  rw [fenceStrip, hdata, pyStripWs, s1, s2, s3, s4, ← hdata, string_mk_data]

/-- The modelled `json.loads` parses the bare classification response
text to the one-member object. -/
theorem json_loads_toolJson (v : String)
    (hv : ∀ c ∈ v.data, ¬c = '"' ∧ ¬c = '\\') :
    json_loads (toolJson v) = some (JsonValue.obj [("tool", JsonValue.str v)]) := by
  unfold json_loads
  have hlen : (toolJson v).length + 1 = (v.data.length + 10) + 3 := by
    show (lbrace :: '"' :: 't' :: 'o' :: 'o' :: 'l' :: '"' :: ':' :: ' ' :: '"'
      :: (v.data ++ ['"', rbrace])).length + 1 = (v.data.length + 10) + 3
    simp
  have hdata : (toolJson v).data
      = lbrace :: '"' :: 't' :: 'o' :: 'o' :: 'l' :: '"' :: ':' :: ' ' :: '"'
        :: (v.data ++ '"' :: rbrace :: []) := rfl
  rw [hlen, hdata, parseVal_toolObj (v.data.length + 10) v [] hv]
  simp [skipJsonWs, lstripBy]

/-- The modelled `json.loads` also parses the response text once the
fence has been stripped down to its two surviving newlines. -/
theorem json_loads_fenced_toolJson (v : String)
    (hv : ∀ c ∈ v.data, ¬c = '"' ∧ ¬c = '\\') :
    json_loads (String.mk ('\n' :: (toolJson v).data ++ ['\n']))
      = some (JsonValue.obj [("tool", JsonValue.str v)]) := by
  unfold json_loads
  have hlen : (String.mk ('\n' :: (toolJson v).data ++ ['\n'])).length + 1
      = ((v.data.length + 12) + 2) + 1 := by
    show ('\n' :: (lbrace :: '"' :: 't' :: 'o' :: 'o' :: 'l' :: '"' :: ':' :: ' ' :: '"'
      :: (v.data ++ ['"', rbrace])) ++ ['\n']).length + 1 = ((v.data.length + 12) + 2) + 1
    simp
  have hdata : (String.mk ('\n' :: (toolJson v).data ++ ['\n'])).data
      = '\n' :: ((toolJson v).data ++ ['\n']) := by simp
  rw [hlen, hdata, parseVal_skip_ws ((v.data.length + 12) + 2) '\n' _ (by decide)]
  have hsplit : (toolJson v).data ++ ['\n']
      = lbrace :: '"' :: 't' :: 'o' :: 'o' :: 'l' :: '"' :: ':' :: ' ' :: '"'
        :: (v.data ++ '"' :: rbrace :: ['\n']) := by
    simp [toolJson]
  rw [hsplit]
  have hfuel : ((v.data.length + 12) + 2) + 1 = (v.data.length + 12) + 3 := by omega
  rw [hfuel, parseVal_toolObj (v.data.length + 12) v ['\n'] hv]
  simp [skipJsonWs, lstripBy, isJsonWs]

/-- Claim C9: the routing function strips surrounding code-fence
markup before parsing, so for every model response whose text is the
JSON object with `tool` holding `v` — bare or wrapped in a
```` ```json ... ``` ```` fence — parsing succeeds and the lower-cased
value of `tool` is the decision (here stated for the values the
validation accepts, together with the prompt echo). -/
theorem c9_code_fence_stripping (p v : String)
    (hv : ∀ c ∈ v.data, ¬c = '"' ∧ ¬c = '\\')
    (hlow : pyLower v ∈ knownTools) :
    get_agent_decision p (RemoteText.returns ("```json\n" ++ toolJson v ++ "\n```"))
      = (pyLower v, p)
    ∧ get_agent_decision p (RemoteText.returns (toolJson v)) = (pyLower v, p) := by
  constructor
  · simp only [get_agent_decision]
    rw [fenceStrip_fenceWrap, json_loads_fenced_toolJson v hv]
    simp [pyToolLookup, lastAssoc, hlow]
  · simp only [get_agent_decision]
    rw [fenceStrip_braced (toolJson v)
        ('"' :: 't' :: 'o' :: 'o' :: 'l' :: '"' :: ':' :: ' ' :: '"' :: (v.data ++ ['"']))
        (by simp [toolJson]),
      json_loads_toolJson v hv]
    simp [pyToolLookup, lastAssoc, hlow]

/-- Claim C9 witness: a fenced response carrying tool value CHIBI is
parsed and routed to the chibi tool at concrete inputs. -/
theorem c9_code_fence_stripping_witness :
    get_agent_decision "draw" (RemoteText.returns ("```json\n" ++ toolJson "CHIBI" ++ "\n```"))
      = ("chibi", "draw") := by
  have h := (c9_code_fence_stripping "draw" "CHIBI" (by decide) (by decide)).1
  simpa using h

/-- Claim C10 counterexample: with GCP_SA_KEY set to the perfectly
valid JSON text of an empty object, module initialization still raises
(the uncaught ValueError from `from_service_account_info`), so "raises
if and only if the variable is absent or its value is not valid JSON"
is false as stated. -/
theorem c10_counterexample_valid_json_raises :
    envCex "GCP_SA_KEY" = some "\x7b\x7d"
    ∧ json_loads "\x7b\x7d" = some (JsonValue.obj [])
    ∧ (∃ e, loadModuleConfig envCex = Except.error e) :=
  ⟨rfl, rfl, ⟨"Service account info was not in the expected format.", rfl⟩⟩

/-- Claim C10 (amended): module initialization raises when the
credential variable is absent (or empty, by Python falsiness), when its
value is not valid JSON, and also — the case the original claim misses —
when the value is valid JSON but not a valid service-account object;
with a valid service-account value it succeeds, and the success is
independent of the PROJECT_ID and BUCKET_NAME variables, whose missing
values flow into the configuration as null. -/
theorem c10_startup_failfast (env : String → Option String) :
    (env "GCP_SA_KEY" = none →
      loadModuleConfig env
        = Except.error "GCP_SA_KEY environment variable is not set.")
    ∧ (∀ s, env "GCP_SA_KEY" = some s → ¬s = "" → json_loads s = none →
      loadModuleConfig env
        = Except.error "GCP_SA_KEY is not a valid JSON string.")
    ∧ (∀ s j, env "GCP_SA_KEY" = some s → ¬s = "" → json_loads s = some j →
        (from_service_account_info j).isOk = false →
        (loadModuleConfig env).isOk = false)
    ∧ (∀ s ms creds, env "GCP_SA_KEY" = some s → ¬s = "" →
        json_loads s = some (JsonValue.obj ms) →
        from_service_account_info (JsonValue.obj ms) = Except.ok creds →
        loadModuleConfig env
          = Except.ok ⟨env "PROJECT_ID", env "BUCKET_NAME", creds⟩) := by
  refine ⟨?_, ?_, ?_, ?_⟩
  · intro h
    simp [loadModuleConfig, h]
  · intro s hs hne hnone
    simp [loadModuleConfig, hs, hne, hnone]
  · intro s j hs hne hj hfail
    cases hres : from_service_account_info j with
    | ok creds => simp [Except.isOk, Except.toBool, hres] at hfail
    | error e => simp [loadModuleConfig, hs, hne, hj, hres, Except.isOk, Except.toBool]
  · intro s ms creds hs hne hj hok
    simp [loadModuleConfig, hs, hne, hj, hok]

/-- Claim C10 witness: a structurally valid service-account JSON makes
initialization succeed even with PROJECT_ID and BUCKET_NAME unset, the
missing values defaulting to null. -/
theorem c10_startup_failfast_witness :
    loadModuleConfig envOk
      = Except.ok ⟨none, none,
          ⟨[("client_email", JsonValue.str "a"), ("token_uri", JsonValue.str "b"),
            ("private_key", JsonValue.str "c")]⟩⟩ := by
  have h := (c10_startup_failfast envOk).2.2.2
    "\x7b\"client_email\": \"a\", \"token_uri\": \"b\", \"private_key\": \"c\"\x7d"
    [("client_email", JsonValue.str "a"), ("token_uri", JsonValue.str "b"),
      ("private_key", JsonValue.str "c")]
    ⟨[("client_email", JsonValue.str "a"), ("token_uri", JsonValue.str "b"),
      ("private_key", JsonValue.str "c")]⟩
    rfl (by decide) rfl rfl
  simpa using h

end ElsaApp
